import Mathlib

/-!
Verification of the log batching and webhook delivery pipeline of the
Phoenix repository (src/index.js).

The pipeline keeps, per channel ("bot" and "site"), a FIFO queue of
formatted log lines, an "is processing" flag, and uses a cooperative
(single-threaded, event-loop) execution model.  The relevant source
functions are "log", "processBotLogQueue", "processSiteLogQueue" and
"handleWebhookError".

We give a small-step operational semantics.  Synchronous code segments
between suspension points (the 500 ms debounce "setTimeout" await, the
"await axios.post", and the 5000 ms retry "setTimeout") execute as one
atomic step, exactly as in the JavaScript event loop.  The environment
chooses when a timer fires and what the HTTP sink answers.  Each pending
suspension is a task attached to its channel:

* "CTask.debounce"   - a flush cycle suspended at the 500 ms setTimeout
                       inside processBotLogQueue / processSiteLogQueue;
* "CTask.awaitPost"  - a flush cycle suspended at "await axios.post";
* "CTask.retryTimer" - the 5000 ms setTimeout armed by handleWebhookError
                       on a 429 response.

Log entries carry a unique numeric id (their creation order) so that
at-most-once delivery can be stated even when two messages have equal
text.  The "line" field is the formatted string the source pushes.
-/

namespace Phoenix

/-- The two log channels: the bot webhook queue and the site webhook queue. -/
inductive Channel
  | bot
  | site
deriving DecidableEq, Repr

/-- Configuration read from the environment at startup:
"WEBHOOK_URL" and "SITE_WEBHOOK_URL", each possibly absent. -/
structure Config where
  webhookURL : Option String
  siteWebhookURL : Option String
deriving DecidableEq, Repr

/-- Destination URL of a channel. -/
def Config.url : Config → Channel → Option String
  | cfg, .bot => cfg.webhookURL
  | cfg, .site => cfg.siteWebhookURL

/-- A queued log entry: the formatted line plus a unique id recording
creation order (instrumentation; the source stores only the string). -/
structure Entry where
  id : Nat
  line : String
deriving DecidableEq, Repr

/-- A pending suspension belonging to one channel of the event loop. -/
inductive CTask
  | debounce
  | awaitPost
  | retryTimer
deriving DecidableEq, Repr

/-- The debounce delay: "setTimeout(resolve, 500)" in processBotLogQueue. -/
def debounceMs : Nat := 500

/-- The retry backoff: "setTimeout(() => processLogQueue(), 5000)" in
handleWebhookError. -/
def retryBackoffMs : Nat := 5000

/-- Timer delay of a task ("awaitPost" is not a timer). -/
def CTask.delayMs : CTask → Option Nat
  | .debounce => some debounceMs
  | .awaitPost => none
  | .retryTimer => some retryBackoffMs

/-- Per-channel state: the pending queue ("botLogQueue" resp.
"siteWebhookQueue"), the flag ("isProcessingBotLogQueue" resp.
"isProcessingSiteLogQueue"), and this channel's pending suspensions. -/
structure ChanState where
  queue : List Entry
  isProcessing : Bool
  tasks : List CTask
deriving DecidableEq, Repr

/-- The JSON body "\x7b content: logs \x7d" posted by axios. -/
structure PostBody where
  content : String
deriving DecidableEq, Repr

/-- Record of one HTTP delivery attempt: the channel it was issued for,
the URL value passed to "axios.post", and the snapshotted batch. -/
structure Attempt where
  channel : Channel
  url : Option String
  batch : List Entry
deriving DecidableEq, Repr

/-- "botLogQueue.join(chr 10)": the payload string of a batch. -/
def joinLines (es : List Entry) : String :=
  String.intercalate "\n" (es.map Entry.line)

/-- The JSON body of an attempt: "\x7b content: logs \x7d". -/
def Attempt.body (a : Attempt) : PostBody := ⟨joinLines a.batch⟩

/-- Global state of the embedded program. -/
structure St where
  bot : ChanState
  site : ChanState
  attempts : List Attempt
  console : List String
  logFile : List String
  callerErrors : List String
  nextId : Nat
deriving DecidableEq, Repr

/-- Initial per-channel state: empty queue, flag down, nothing pending. -/
def ChanState.init : ChanState := ⟨[], false, []⟩

/-- Initial global state (process start). -/
def St.init : St := ⟨ChanState.init, ChanState.init, [], [], [], [], 0⟩

/-- Project out one channel's state. -/
def St.chan : St → Channel → ChanState
  | s, .bot => s.bot
  | s, .site => s.site

/-- Replace one channel's state. -/
def St.setChan : St → Channel → ChanState → St
  | s, .bot, ch => { s with bot := ch }
  | s, .site, ch => { s with site := ch }

/-- Replace the console transcript (shorthand for stating equations). -/
def St.withConsole (s : St) (x : List String) : St := { s with console := x }

/-- Replace the attempt log (shorthand for stating equations). -/
def St.withAttempts (s : St) (x : List Attempt) : St := { s with attempts := x }

/-- Replace the fresh-id counter (shorthand for stating equations). -/
def St.withNextId (s : St) (n : Nat) : St := { s with nextId := n }

/-- Outcome of an HTTP post chosen by the environment: resolves without
error, rejects with a response of status 429, or rejects otherwise. -/
inductive HttpResult
  | success
  | rate429
  | otherErr (msg : String)
deriving DecidableEq, Repr

/-- Events of the semantics.  "record ts msg isSiteRelated appendOk" is a
call of "log(message, isSiteRelated)" at wall-clock time "ts"; "appendOk"
is false when "fs.appendFileSync" throws.  "fireTimer c i" fires the i-th
pending timer task of channel "c"; "respond c i r" resolves the i-th task
of channel "c" when it is an in-flight post. -/
inductive Ev
  | record (ts msg : String) (isSiteRelated appendOk : Bool)
  | fireTimer (c : Channel) (i : Nat)
  | respond (c : Channel) (i : Nat) (r : HttpResult)
deriving DecidableEq, Repr

/-- "[$\x7btimestamp\x7d] $\x7bmessage\x7d" -/
def formatLine (ts msg : String) : String := "[" ++ ts ++ "] " ++ msg

/-- Console line printed on delivery success for each channel. -/
def successMsg : Channel → String
  | .bot => "Logged to bot webhook successfully."
  | .site => "Logged to site webhook successfully."

/-- The error value "fs.appendFileSync" throws, as seen by the caller. -/
def appendFailureMsg (line : String) : String := "append failed: " ++ line

/-- Synchronous prefix of processBotLogQueue / processSiteLogQueue up to
its first await: set the flag, arm the 500 ms debounce timer. -/
def startProcess (ch : ChanState) : ChanState :=
  { ch with isProcessing := true, tasks := ch.tasks ++ [CTask.debounce] }

/-- The queue-push part of "log": guarded by the channel's URL being
configured, push the entry and start a flush cycle unless one is marked
in progress. -/
def pushChan (cfg : Config) (c : Channel) (line : String) (s : St) : St :=
  match cfg.url c with
  | none => s
  | some _ =>
    let entry : Entry := ⟨s.nextId, line⟩
    let ch := s.chan c
    let ch1 : ChanState := { ch with queue := ch.queue ++ [entry] }
    let ch2 : ChanState := if ch1.isProcessing then ch1 else startProcess ch1
    { s.setChan c ch2 with nextId := s.nextId + 1 }

/-- One call of "log(message, isSiteRelated)": format, console.log,
append to the current log file (throwing to the caller if the append
fails), then push to the selected channel's queue when its URL is set. -/
def recordStep (cfg : Config) (ts msg : String) (isSiteRelated appendOk : Bool)
    (s : St) : St :=
  let line := formatLine ts msg
  let s1 := { s with console := s.console ++ [line] }
  if appendOk then
    pushChan cfg (if isSiteRelated then Channel.site else Channel.bot) line
      { s1 with logFile := s1.logFile ++ [line] }
  else
    { s1 with callerErrors := s1.callerErrors ++ [appendFailureMsg line] }

/-- A timer of channel "c" fires.  A "debounce" task resumes the flush
cycle after its 500 ms wait: if the queue is empty the cycle ends (flag
down); otherwise it joins the queue into one payload, clears the queue,
and issues the post (recorded in "attempts", the cycle now suspended at
"await axios.post").  A "retryTimer" task is the handleWebhookError
callback: it re-invokes the process function, which sets the flag and
arms a fresh debounce timer - without checking the flag. -/
def fireTimerStep (cfg : Config) (c : Channel) (i : Nat) (s : St) : St :=
  let ch := s.chan c
  match ch.tasks[i]? with
  | some CTask.debounce =>
    if ch.queue.isEmpty then
      s.setChan c { ch with isProcessing := false, tasks := ch.tasks.eraseIdx i }
    else
      let s1 := s.setChan c { ch with queue := [], tasks := ch.tasks.set i CTask.awaitPost }
      { s1 with attempts := s.attempts ++ [⟨c, cfg.url c, ch.queue⟩] }
  | some CTask.retryTimer =>
    s.setChan c { ch with isProcessing := true, tasks := ch.tasks.set i CTask.debounce }
  | _ => s

/-- The sink answers an in-flight post of channel "c".  On resolution the
flush cycle runs to the end of its function body synchronously: success
logs a console line; a 429 rejection is caught and handleWebhookError
arms the 5000 ms retry timer; any other rejection is caught and logged
via console.error.  In every case the function then clears the flag. -/
def respondStep (c : Channel) (i : Nat) (r : HttpResult) (s : St) : St :=
  let ch := s.chan c
  match ch.tasks[i]? with
  | some CTask.awaitPost =>
    match r with
    | .success =>
      let s1 := s.setChan c { ch with isProcessing := false, tasks := ch.tasks.eraseIdx i }
      { s1 with console := s.console ++ [successMsg c] }
    | .rate429 =>
      let ch1 : ChanState :=
        { ch with isProcessing := false, tasks := ch.tasks.eraseIdx i ++ [CTask.retryTimer] }
      let s1 := s.setChan c ch1
      { s1 with console := s.console ++ ["Rate limited. Retrying after 5 seconds..."] }
    | .otherErr m =>
      let s1 := s.setChan c { ch with isProcessing := false, tasks := ch.tasks.eraseIdx i }
      { s1 with console := s.console ++ ["Error logging to webhook: " ++ m] }
  | _ => s

/-- One step of the event loop. -/
def step (cfg : Config) (s : St) : Ev → St
  | .record ts msg isS ok => recordStep cfg ts msg isS ok s
  | .fireTimer c i => fireTimerStep cfg c i s
  | .respond c i r => respondStep c i r s

/-- Run a list of events. -/
def run (cfg : Config) (s : St) : List Ev → St
  | [] => s
  | e :: es => run cfg (step cfg s e) es

/-- States reachable from process start. -/
inductive Reachable (cfg : Config) : St → Prop
  | init : Reachable cfg St.init
  | next {s : St} (e : Ev) : Reachable cfg s → Reachable cfg (step cfg s e)

/-- A sequence of successful bot-channel "log" calls, one event each. -/
def recordEvs (ms : List (String × String)) : List Ev :=
  ms.map (fun p => Ev.record p.1 p.2 false true)

/-- The entries that recording "ms" produces when the next fresh id is
"n": formatted lines with consecutive ids. -/
def mkEntries : List (String × String) → Nat → List Entry
  | [], _ => []
  | p :: ps, n => ⟨n, formatLine p.1 p.2⟩ :: mkEntries ps (n + 1)

/-- Does this event deliver a 429 response? -/
def Ev.isRate429 : Ev → Bool
  | .respond _ _ .rate429 => true
  | _ => false

/-- States reachable along executions in which the sink never answers
with status 429. -/
inductive ReachableNo429 (cfg : Config) : St → Prop
  | init : ReachableNo429 cfg St.init
  | next {s : St} (e : Ev) (h : e.isRate429 = false) :
      ReachableNo429 cfg s → ReachableNo429 cfg (step cfg s e)

/-- Number of in-flight HTTP deliveries of a channel. -/
def inFlightPosts (ch : ChanState) : Nat :=
  ch.tasks.countP (fun t => t == CTask.awaitPost)

/-- Per-channel flush-cycle invariant that holds when no 429 ever
occurred: at most one pending suspension, the flag is up exactly while
one exists, and no retry timer is armed. -/
def ChanMutex (ch : ChanState) : Prop :=
  ch.tasks.length ≤ 1 ∧ (ch.isProcessing = true ↔ ch.tasks ≠ []) ∧
    CTask.retryTimer ∉ ch.tasks

/-- How often an id occurs in a list of entries. -/
def idCount (id : Nat) (es : List Entry) : Nat :=
  es.countP (fun e => e.id == id)

/-- How often an id occurs across the batches of a list of attempts. -/
def attemptsIdCount (id : Nat) (as : List Attempt) : Nat :=
  (as.map (fun a => idCount id a.batch)).sum

/-- Total occurrences of an id anywhere in a state (all attempted
batches plus both pending queues). -/
def totalIdCount (id : Nat) (s : St) : Nat :=
  attemptsIdCount id s.attempts + idCount id s.bot.queue + idCount id s.site.queue

/-- Freshness invariant: every id occurs at most once in the whole
state, and ids at or above the fresh counter do not occur at all. -/
def IdFresh (s : St) : Prop :=
  ∀ id, totalIdCount id s ≤ 1 ∧ (s.nextId ≤ id → totalIdCount id s = 0)

theorem reachable_of_run (cfg : Config) {s : St} (h : Reachable cfg s)
    (evs : List Ev) : Reachable cfg (run cfg s evs) := by
  induction evs generalizing s with
  | nil => exact h
  | cons e es ih => exact ih (Reachable.next e h)

theorem reachable_run (cfg : Config) (evs : List Ev) :
    Reachable cfg (run cfg St.init evs) :=
  reachable_of_run cfg Reachable.init evs

theorem reachableNo429_of_run (cfg : Config) {s : St} (h : ReachableNo429 cfg s)
    (evs : List Ev) (hev : ∀ e ∈ evs, e.isRate429 = false) :
    ReachableNo429 cfg (run cfg s evs) := by
  induction evs generalizing s with
  | nil => exact h
  | cons e es ih =>
    exact ih (ReachableNo429.next e (hev e (by simp)) h)
      (fun e' he' => hev e' (by simp [he']))

theorem reachableNo429_run (cfg : Config) (evs : List Ev)
    (hev : ∀ e ∈ evs, e.isRate429 = false) :
    ReachableNo429 cfg (run cfg St.init evs) :=
  reachableNo429_of_run cfg ReachableNo429.init evs hev

/-! ### Basic facts about state access -/

@[simp] theorem chan_setChan_self (s : St) (c : Channel) (ch : ChanState) :
    (s.setChan c ch).chan c = ch := by cases c <;> rfl

theorem chan_setChan_ne (s : St) {c c' : Channel} (h : c' ≠ c) (ch : ChanState) :
    (s.setChan c ch).chan c' = s.chan c' := by
  cases c <;> cases c' <;> first | rfl | exact absurd rfl h

@[simp] theorem setChan_attempts (s : St) (c : Channel) (ch : ChanState) :
    (s.setChan c ch).attempts = s.attempts := by cases c <;> rfl

@[simp] theorem setChan_console (s : St) (c : Channel) (ch : ChanState) :
    (s.setChan c ch).console = s.console := by cases c <;> rfl

@[simp] theorem setChan_logFile (s : St) (c : Channel) (ch : ChanState) :
    (s.setChan c ch).logFile = s.logFile := by cases c <;> rfl

@[simp] theorem setChan_callerErrors (s : St) (c : Channel) (ch : ChanState) :
    (s.setChan c ch).callerErrors = s.callerErrors := by cases c <;> rfl

@[simp] theorem setChan_nextId (s : St) (c : Channel) (ch : ChanState) :
    (s.setChan c ch).nextId = s.nextId := by cases c <;> rfl

@[simp] theorem setChan_bot_site (s : St) (ch : ChanState) :
    (s.setChan .bot ch).site = s.site := rfl

@[simp] theorem setChan_site_bot (s : St) (ch : ChanState) :
    (s.setChan .site ch).bot = s.bot := rfl

@[simp] theorem setChan_bot_bot (s : St) (ch : ChanState) :
    (s.setChan .bot ch).bot = ch := rfl

@[simp] theorem setChan_site_site (s : St) (ch : ChanState) :
    (s.setChan .site ch).site = ch := rfl

@[simp] theorem chan_bot (s : St) : s.chan .bot = s.bot := rfl

@[simp] theorem chan_site (s : St) : s.chan .site = s.site := rfl

/-! ### Effect of one "log" call on the non-queue parts of the state -/

theorem pushChan_console (cfg : Config) (c : Channel) (line : String) (s : St) :
    (pushChan cfg c line s).console = s.console := by
  unfold pushChan; split <;> simp

theorem pushChan_logFile (cfg : Config) (c : Channel) (line : String) (s : St) :
    (pushChan cfg c line s).logFile = s.logFile := by
  unfold pushChan; split <;> simp

theorem pushChan_callerErrors (cfg : Config) (c : Channel) (line : String) (s : St) :
    (pushChan cfg c line s).callerErrors = s.callerErrors := by
  unfold pushChan; split <;> simp

theorem pushChan_attempts (cfg : Config) (c : Channel) (line : String) (s : St) :
    (pushChan cfg c line s).attempts = s.attempts := by
  unfold pushChan; split <;> simp

theorem chan_withNextId (t : St) (n : Nat) (c : Channel) :
    (St.chan { t with nextId := n } c) = t.chan c := by cases c <;> rfl

theorem pushChan_chan_ne (cfg : Config) {c c' : Channel} (h : c' ≠ c)
    (line : String) (s : St) :
    (pushChan cfg c line s).chan c' = s.chan c' := by
  unfold pushChan
  split
  · rfl
  · cases c' <;> cases c <;> simp_all [St.chan, St.setChan]

theorem pushChan_site_bot (cfg : Config) (line : String) (s : St) :
    (pushChan cfg .site line s).bot = s.bot :=
  @pushChan_chan_ne cfg Channel.site Channel.bot (by decide) line s

theorem pushChan_bot_site (cfg : Config) (line : String) (s : St) :
    (pushChan cfg .bot line s).site = s.site :=
  @pushChan_chan_ne cfg Channel.bot Channel.site (by decide) line s

/-! ### Facts about the state-update shorthands -/

@[simp] theorem withConsole_chan (t : St) (x : List String) (c : Channel) :
    (t.withConsole x).chan c = t.chan c := by cases c <;> rfl

@[simp] theorem withConsole_console (t : St) (x : List String) :
    (t.withConsole x).console = x := rfl

@[simp] theorem withConsole_logFile (t : St) (x : List String) :
    (t.withConsole x).logFile = t.logFile := rfl

@[simp] theorem withConsole_attempts (t : St) (x : List String) :
    (t.withConsole x).attempts = t.attempts := rfl

@[simp] theorem withConsole_callerErrors (t : St) (x : List String) :
    (t.withConsole x).callerErrors = t.callerErrors := rfl

@[simp] theorem withConsole_nextId (t : St) (x : List String) :
    (t.withConsole x).nextId = t.nextId := rfl

@[simp] theorem withAttempts_chan (t : St) (x : List Attempt) (c : Channel) :
    (t.withAttempts x).chan c = t.chan c := by cases c <;> rfl

@[simp] theorem withAttempts_attempts (t : St) (x : List Attempt) :
    (t.withAttempts x).attempts = x := rfl

@[simp] theorem withAttempts_console (t : St) (x : List Attempt) :
    (t.withAttempts x).console = t.console := rfl

@[simp] theorem withAttempts_logFile (t : St) (x : List Attempt) :
    (t.withAttempts x).logFile = t.logFile := rfl

@[simp] theorem withAttempts_callerErrors (t : St) (x : List Attempt) :
    (t.withAttempts x).callerErrors = t.callerErrors := rfl

@[simp] theorem withAttempts_nextId (t : St) (x : List Attempt) :
    (t.withAttempts x).nextId = t.nextId := rfl

@[simp] theorem withNextId_chan (t : St) (n : Nat) (c : Channel) :
    (t.withNextId n).chan c = t.chan c := by cases c <;> rfl

@[simp] theorem withNextId_nextId (t : St) (n : Nat) :
    (t.withNextId n).nextId = n := rfl

@[simp] theorem withNextId_attempts (t : St) (n : Nat) :
    (t.withNextId n).attempts = t.attempts := rfl

@[simp] theorem withNextId_console (t : St) (n : Nat) :
    (t.withNextId n).console = t.console := rfl

@[simp] theorem withNextId_logFile (t : St) (n : Nat) :
    (t.withNextId n).logFile = t.logFile := rfl

@[simp] theorem withNextId_callerErrors (t : St) (n : Nat) :
    (t.withNextId n).callerErrors = t.callerErrors := rfl

/-! ### Branch equations for the step functions -/

theorem record_fail_eq (cfg : Config) (ts msg : String) (isS : Bool) (s : St) :
    recordStep cfg ts msg isS false s
      = { s with console := s.console ++ [formatLine ts msg],
                 callerErrors := s.callerErrors ++ [appendFailureMsg (formatLine ts msg)] } := rfl

theorem record_ok_eq (cfg : Config) (ts msg : String) (isS : Bool) (s : St) :
    recordStep cfg ts msg isS true s
      = pushChan cfg (if isS then Channel.site else Channel.bot) (formatLine ts msg)
          { s with console := s.console ++ [formatLine ts msg],
                   logFile := s.logFile ++ [formatLine ts msg] } := rfl

theorem pushChan_none_eq (cfg : Config) {c : Channel} (h : cfg.url c = none)
    (line : String) (s : St) : pushChan cfg c line s = s := by
  simp only [pushChan]; rw [h]

theorem pushChan_busy_eq (cfg : Config) {c : Channel} {u : String}
    (h : cfg.url c = some u) (line : String) (s : St)
    (hp : (s.chan c).isProcessing = true) :
    pushChan cfg c line s
      = (s.setChan c { s.chan c with
            queue := (s.chan c).queue ++ [⟨s.nextId, line⟩] }).withNextId
          (s.nextId + 1) := by
  simp only [pushChan]; rw [h]; simp [hp, St.withNextId, St.setChan]

theorem pushChan_idle_eq (cfg : Config) {c : Channel} {u : String}
    (h : cfg.url c = some u) (line : String) (s : St)
    (hp : (s.chan c).isProcessing = false) :
    pushChan cfg c line s
      = (s.setChan c ⟨(s.chan c).queue ++ [⟨s.nextId, line⟩], true,
            (s.chan c).tasks ++ [CTask.debounce]⟩).withNextId (s.nextId + 1) := by
  simp only [pushChan]; rw [h]; simp [hp, startProcess, St.withNextId, St.setChan]

theorem fireTimer_debounce_empty_eq (cfg : Config) (c : Channel) (i : Nat) (s : St)
    (h : (s.chan c).tasks[i]? = some CTask.debounce) (hq : (s.chan c).queue = []) :
    fireTimerStep cfg c i s
      = s.setChan c
          { s.chan c with isProcessing := false, tasks := (s.chan c).tasks.eraseIdx i } := by
  simp only [fireTimerStep]; rw [h, hq]
  all_goals rfl

theorem fireTimer_debounce_flush_eq (cfg : Config) (c : Channel) (i : Nat) (s : St)
    (h : (s.chan c).tasks[i]? = some CTask.debounce) (hq : (s.chan c).queue ≠ []) :
    fireTimerStep cfg c i s
      = (s.setChan c
            { s.chan c with queue := [], tasks := (s.chan c).tasks.set i CTask.awaitPost }).withAttempts
          (s.attempts ++ [⟨c, cfg.url c, (s.chan c).queue⟩]) := by
  simp only [fireTimerStep]; rw [h]
  rw [if_neg]
  · rfl
  · simp [hq]

theorem fireTimer_retry_eq (cfg : Config) (c : Channel) (i : Nat) (s : St)
    (h : (s.chan c).tasks[i]? = some CTask.retryTimer) :
    fireTimerStep cfg c i s
      = s.setChan c
          { s.chan c with isProcessing := true, tasks := (s.chan c).tasks.set i CTask.debounce } := by
  simp only [fireTimerStep]; rw [h]

theorem fireTimer_awaitPost_eq (cfg : Config) (c : Channel) (i : Nat) (s : St)
    (h : (s.chan c).tasks[i]? = some CTask.awaitPost) :
    fireTimerStep cfg c i s = s := by
  simp only [fireTimerStep]; rw [h]

theorem fireTimer_outOfRange_eq (cfg : Config) (c : Channel) (i : Nat) (s : St)
    (h : (s.chan c).tasks[i]? = none) :
    fireTimerStep cfg c i s = s := by
  simp only [fireTimerStep]; rw [h]

theorem respond_success_eq (c : Channel) (i : Nat) (s : St)
    (h : (s.chan c).tasks[i]? = some CTask.awaitPost) :
    respondStep c i HttpResult.success s
      = (s.setChan c
            { s.chan c with isProcessing := false, tasks := (s.chan c).tasks.eraseIdx i }).withConsole
          (s.console ++ [successMsg c]) := by
  simp only [respondStep]; rw [h]
  all_goals rfl

theorem respond_rate429_eq (c : Channel) (i : Nat) (s : St)
    (h : (s.chan c).tasks[i]? = some CTask.awaitPost) :
    respondStep c i HttpResult.rate429 s
      = (s.setChan c
            { s.chan c with isProcessing := false, tasks := (s.chan c).tasks.eraseIdx i ++ [CTask.retryTimer] }).withConsole
          (s.console ++ ["Rate limited. Retrying after 5 seconds..."]) := by
  simp only [respondStep]; rw [h]
  all_goals rfl

theorem respond_otherErr_eq (c : Channel) (i : Nat) (s : St) (m : String)
    (h : (s.chan c).tasks[i]? = some CTask.awaitPost) :
    respondStep c i (HttpResult.otherErr m) s
      = (s.setChan c
            { s.chan c with isProcessing := false, tasks := (s.chan c).tasks.eraseIdx i }).withConsole
          (s.console ++ ["Error logging to webhook: " ++ m]) := by
  simp only [respondStep]; rw [h]
  all_goals rfl

theorem respond_noPost_eq (c : Channel) (i : Nat) (r : HttpResult) (s : St)
    (h : (s.chan c).tasks[i]? ≠ some CTask.awaitPost) :
    respondStep c i r s = s := by
  simp only [respondStep]

@[simp] theorem step_record_eq (cfg : Config) (s : St) (ts msg : String)
    (isS ok : Bool) :
    step cfg s (Ev.record ts msg isS ok) = recordStep cfg ts msg isS ok s := rfl

@[simp] theorem step_fireTimer_eq (cfg : Config) (s : St) (c : Channel) (i : Nat) :
    step cfg s (Ev.fireTimer c i) = fireTimerStep cfg c i s := rfl

@[simp] theorem step_respond_eq (cfg : Config) (s : St) (c : Channel) (i : Nat)
    (r : HttpResult) :
    step cfg s (Ev.respond c i r) = respondStep c i r s := rfl

theorem chan_withSinks (t : St) (x y : List String) (d : Channel) :
    St.chan { t with console := x, logFile := y } d = t.chan d := by cases d <;> rfl

theorem chan_withConsoleErrors (t : St) (x y : List String) (d : Channel) :
    St.chan { t with console := x, callerErrors := y } d = t.chan d := by
  cases d <;> rfl

theorem record_chan_ne (cfg : Config) (ts msg : String) (isS ok : Bool) (s : St)
    {d : Channel} (h : d ≠ (if isS then Channel.site else Channel.bot)) :
    (recordStep cfg ts msg isS ok s).chan d = s.chan d := by
  cases ok
  · cases d <;> rfl
  · rw [record_ok_eq, pushChan_chan_ne _ h, chan_withSinks]

theorem fireTimer_chan_ne (cfg : Config) {c d : Channel} (h : d ≠ c) (i : Nat)
    (s : St) : (fireTimerStep cfg c i s).chan d = s.chan d := by
  rcases htask : (s.chan c).tasks[i]? with _ | t
  · rw [fireTimer_outOfRange_eq cfg c i s htask]
  · cases t
    · by_cases hq : (s.chan c).queue = []
      · rw [fireTimer_debounce_empty_eq cfg c i s htask hq, chan_setChan_ne _ h]
      · rw [fireTimer_debounce_flush_eq cfg c i s htask hq, withAttempts_chan,
          chan_setChan_ne _ h]
    · rw [fireTimer_awaitPost_eq cfg c i s htask]
    · rw [fireTimer_retry_eq cfg c i s htask, chan_setChan_ne _ h]

theorem respond_chan_ne {c d : Channel} (h : d ≠ c) (i : Nat) (r : HttpResult)
    (s : St) : (respondStep c i r s).chan d = s.chan d := by
  by_cases hp : (s.chan c).tasks[i]? = some CTask.awaitPost
  · cases r
    · rw [respond_success_eq c i s hp, withConsole_chan, chan_setChan_ne _ h]
    · rw [respond_rate429_eq c i s hp, withConsole_chan, chan_setChan_ne _ h]
    · rw [respond_otherErr_eq c i s _ hp, withConsole_chan, chan_setChan_ne _ h]
  · rw [respond_noPost_eq c i r s hp]

/-! ### Preservation of the per-channel mutual-exclusion invariant
(used for the amended form of claim C2) -/

theorem short_tasks {ts : List CTask} (hlen : ts.length ≤ 1) {i : Nat} {t : CTask}
    (h : ts[i]? = some t) : ts = [t] ∧ i = 0 := by
  cases ts with
  | nil => simp at h
  | cons a rest =>
    cases rest with
    | cons b r2 => simp at hlen
    | nil =>
      cases i with
      | zero => simp_all
      | succ n => simp at h

theorem pushChan_chanMutex (cfg : Config) (c : Channel) (line : String) (s : St)
    (h : ChanMutex (s.chan c)) : ChanMutex ((pushChan cfg c line s).chan c) := by
  rcases hurl : cfg.url c with _ | u
  · rw [pushChan_none_eq cfg hurl]; exact h
  · rcases hp : (s.chan c).isProcessing
    · rw [pushChan_idle_eq cfg hurl line s hp]
      simp only [withNextId_chan, chan_setChan_self]
      have htasks : (s.chan c).tasks = [] := by
        by_contra hne
        have := h.2.1.mpr hne
        rw [hp] at this
        exact absurd this (by simp)
      rw [htasks]
      simp [ChanMutex]
    · rw [pushChan_busy_eq cfg hurl line s hp]
      simp only [withNextId_chan, chan_setChan_self]
      exact h

theorem chanMutex_step (cfg : Config) (e : Ev) (he : e.isRate429 = false) (s : St)
    (d : Channel) (hd : ChanMutex (s.chan d)) : ChanMutex ((step cfg s e).chan d) := by
  cases e with
  | record ts msg isS ok =>
    rw [step_record_eq]
    by_cases hdc : d = (if isS then Channel.site else Channel.bot)
    · cases ok
      · have heq : (recordStep cfg ts msg isS false s).chan d = s.chan d := by
          cases d <;> rfl
        rw [heq]; exact hd
      · subst hdc
        rw [record_ok_eq]
        apply pushChan_chanMutex
        rw [chan_withSinks]
        exact hd
    · rw [record_chan_ne cfg ts msg isS ok s hdc]; exact hd
  | fireTimer c i =>
    rw [step_fireTimer_eq]
    by_cases hdc : d = c
    · subst hdc
      rcases htask : (s.chan d).tasks[i]? with _ | t
      · rw [fireTimer_outOfRange_eq cfg d i s htask]; exact hd
      · obtain ⟨hts, hi⟩ := short_tasks hd.1 htask
        cases t
        · by_cases hq : (s.chan d).queue = []
          · rw [fireTimer_debounce_empty_eq cfg d i s htask hq, chan_setChan_self]
            simp [ChanMutex, hts, hi]
          · rw [fireTimer_debounce_flush_eq cfg d i s htask hq, withAttempts_chan,
              chan_setChan_self]
            have hflag : (s.chan d).isProcessing = true := hd.2.1.mpr (by simp [hts])
            simp [ChanMutex, hts, hi, hflag]
        · rw [fireTimer_awaitPost_eq cfg d i s htask]; exact hd
        · exact absurd (by simp [hts]) (fun hmem => hd.2.2 hmem)
    · rw [fireTimer_chan_ne cfg hdc i s]; exact hd
  | respond c i r =>
    rw [step_respond_eq]
    by_cases hdc : d = c
    · subst hdc
      by_cases hp : (s.chan d).tasks[i]? = some CTask.awaitPost
      · obtain ⟨hts, hi⟩ := short_tasks hd.1 hp
        cases r
        · rw [respond_success_eq d i s hp, withConsole_chan, chan_setChan_self]
          simp [ChanMutex, hts, hi]
        · simp [Ev.isRate429] at he
        · rw [respond_otherErr_eq d i s _ hp, withConsole_chan, chan_setChan_self]
          simp [ChanMutex, hts, hi]
      · rw [respond_noPost_eq d i r s hp]; exact hd
    · rw [respond_chan_ne hdc i r s]; exact hd

theorem chanMutex_reachableNo429 {cfg : Config} {s : St}
    (h : ReachableNo429 cfg s) (d : Channel) : ChanMutex (s.chan d) := by
  induction h with
  | init => cases d <;> simp [ChanMutex, St.init, ChanState.init, St.chan]
  | next e he _ ih => exact chanMutex_step _ e he _ d ih

/-! ### Claim C8 -/

/-- C8: for every "log" call, on any channel tag and with any
configuration, the message is formatted with the timestamp and the
formatted line is written to the console and appended to the current
log file within the same synchronous step. -/
theorem record_writes_local_sinks (cfg : Config) (s : St) (ts msg : String)
    (isS : Bool) :
    formatLine ts msg = "[" ++ ts ++ "] " ++ msg ∧
    (step cfg s (Ev.record ts msg isS true)).console = s.console ++ [formatLine ts msg] ∧
    (step cfg s (Ev.record ts msg isS true)).logFile = s.logFile ++ [formatLine ts msg] := by
  refine ⟨rfl, ?_, ?_⟩ <;>
    simp [step, recordStep, pushChan_console, pushChan_logFile]

/-! ### Claim C6 -/

/-- C6: no remote-delivery outcome (a response of any kind, or a timer
firing) ever adds to the errors seen by callers of "log", while a failed
local append during "log" does propagate to the caller. -/
theorem error_propagation_policy (cfg : Config) (s : St) :
    (∀ ts msg isS, (step cfg s (Ev.record ts msg isS true)).callerErrors
        = s.callerErrors) ∧
    (∀ ts msg isS, (step cfg s (Ev.record ts msg isS false)).callerErrors
        = s.callerErrors ++ [appendFailureMsg (formatLine ts msg)]) ∧
    (∀ c i r, (step cfg s (Ev.respond c i r)).callerErrors = s.callerErrors) ∧
    (∀ c i, (step cfg s (Ev.fireTimer c i)).callerErrors = s.callerErrors) := by
  refine ⟨?_, ?_, ?_, ?_⟩
  · intro ts msg isS
    simp [step, recordStep, pushChan_callerErrors]
  · intro ts msg isS
    simp [step, recordStep]
  · intro c i r
    simp only [step, respondStep]
    split
    · split <;> simp
    · rfl
  · intro c i
    simp only [step, fireTimerStep]
    split
    · split <;> simp
    · simp
    · rfl

/-! ### Claim C7 -/

/-- C7: when a delivery attempt fails with an error that is not a 429
rate limit, the error is logged locally on the console, the batch is
dropped (the pending queue is untouched and nothing is re-queued), no
retry is scheduled (the in-flight task simply disappears), and the flag
is cleared. -/
theorem non_rate_limit_failure_dropped (cfg : Config) (s : St) (c : Channel)
    (i : Nat) (m : String) (h : (s.chan c).tasks[i]? = some CTask.awaitPost) :
    (step cfg s (Ev.respond c i (HttpResult.otherErr m))).console
        = s.console ++ ["Error logging to webhook: " ++ m] ∧
    ((step cfg s (Ev.respond c i (HttpResult.otherErr m))).chan c).tasks
        = (s.chan c).tasks.eraseIdx i ∧
    ((step cfg s (Ev.respond c i (HttpResult.otherErr m))).chan c).queue
        = (s.chan c).queue ∧
    ((step cfg s (Ev.respond c i (HttpResult.otherErr m))).chan c).isProcessing = false ∧
    (step cfg s (Ev.respond c i (HttpResult.otherErr m))).attempts = s.attempts := by
  cases c <;>
  · simp only [chan_bot, chan_site] at h ⊢
    simp [step, respondStep, h]

/-- Concrete instance of the C7 theorem: one recorded message, the
debounce fires, then the sink rejects with a non-429 error. -/
theorem non_rate_limit_failure_dropped_witness :
    ((run ⟨some "https://w", none⟩ St.init
        [Ev.record "t" "m" false true, Ev.fireTimer .bot 0]).chan .bot).tasks[0]?
      = some CTask.awaitPost ∧
    (step ⟨some "https://w", none⟩
        (run ⟨some "https://w", none⟩ St.init
          [Ev.record "t" "m" false true, Ev.fireTimer .bot 0])
        (Ev.respond .bot 0 (HttpResult.otherErr "boom"))).console
      = (run ⟨some "https://w", none⟩ St.init
          [Ev.record "t" "m" false true, Ev.fireTimer .bot 0]).console
        ++ ["Error logging to webhook: " ++ "boom"] :=
  ⟨by decide, (non_rate_limit_failure_dropped ⟨some "https://w", none⟩
      (run ⟨some "https://w", none⟩ St.init
        [Ev.record "t" "m" false true, Ev.fireTimer .bot 0])
      Channel.bot 0 "boom" (by decide)).1⟩

/-! ### Claim C10 -/

/-- C10: the two channels are fully isolated.  A site-tagged "log" call
leaves the bot channel state (queue, flag, pending tasks) unchanged and
vice versa; firing a timer of one channel or answering one channel's
post leaves the other channel state unchanged; a delivery issued by one
channel's flush cycle is tagged with that channel and with that
channel's own configured URL; and a bot flush step neither reads nor
writes the site state at all (it commutes with replacing the site
state), and symmetrically. -/
theorem channel_isolation (cfg : Config) (s : St) :
    (∀ ts msg ok, (step cfg s (Ev.record ts msg true ok)).bot = s.bot) ∧
    (∀ ts msg ok, (step cfg s (Ev.record ts msg false ok)).site = s.site) ∧
    (∀ i, (step cfg s (Ev.fireTimer .bot i)).site = s.site) ∧
    (∀ i r, (step cfg s (Ev.respond .bot i r)).site = s.site) ∧
    (∀ i, (step cfg s (Ev.fireTimer .site i)).bot = s.bot) ∧
    (∀ i r, (step cfg s (Ev.respond .site i r)).bot = s.bot) ∧
    (∀ i, ∀ a ∈ ((step cfg s (Ev.fireTimer .bot i)).attempts).drop s.attempts.length,
        a.channel = Channel.bot ∧ a.url = cfg.webhookURL) ∧
    (∀ i, ∀ a ∈ ((step cfg s (Ev.fireTimer .site i)).attempts).drop s.attempts.length,
        a.channel = Channel.site ∧ a.url = cfg.siteWebhookURL) ∧
    (∀ x i, step cfg (s.setChan .site x) (Ev.fireTimer .bot i)
        = (step cfg s (Ev.fireTimer .bot i)).setChan .site x) ∧
    (∀ x i, step cfg (s.setChan .bot x) (Ev.fireTimer .site i)
        = (step cfg s (Ev.fireTimer .site i)).setChan .bot x) := by
  refine ⟨?_, ?_, ?_, ?_, ?_, ?_, ?_, ?_, ?_, ?_⟩
  · intro ts msg ok
    cases ok <;> simp [step, recordStep, pushChan_site_bot]
  · intro ts msg ok
    cases ok <;> simp [step, recordStep, pushChan_bot_site]
  · intro i
    simp only [step, fireTimerStep]
    split
    · split <;> simp
    · simp
    · rfl
  · intro i r
    simp only [step, respondStep]
    split
    · split <;> simp
    · rfl
  · intro i
    simp only [step, fireTimerStep]
    split
    · split <;> simp
    · simp
    · rfl
  · intro i r
    simp only [step, respondStep]
    split
    · split <;> simp
    · rfl
  · intro i a ha
    simp only [step, fireTimerStep] at ha
    revert ha
    split
    · split
      · simp
      · simp [List.drop_left]
        rintro rfl
        exact ⟨rfl, rfl⟩
    · simp
    · simp
  · intro i a ha
    simp only [step, fireTimerStep] at ha
    revert ha
    split
    · split
      · simp
      · simp [List.drop_left]
        rintro rfl
        exact ⟨rfl, rfl⟩
    · simp
    · simp
  · intro x i
    simp only [step, fireTimerStep, chan_bot, setChan_site_bot]
    rcases h : s.bot.tasks[i]? with _ | t
    · rfl
    · cases t <;> simp only [h] <;> first | rfl | (split <;> rfl)
  · intro x i
    simp only [step, fireTimerStep, chan_site, setChan_bot_site]
    rcases h : s.site.tasks[i]? with _ | t
    · rfl
    · cases t <;> simp only [h] <;> first | rfl | (split <;> rfl)

/-! ### Claim C3 -/

/-- C3 counterexample: the claim says the flush-in-progress flag returns
to a non-flushing, schedulable state only after the scheduled retry
resolves.  In the code, handleWebhookError arms the retry timer and
returns synchronously, after which the flush function immediately sets
the flag to false, so a reachable state has the retry still pending
while the flag is already down. -/
theorem flag_cleared_before_retry_resolves :
    ¬ (∀ s : St, Reachable ⟨some "https://w", none⟩ s →
        CTask.retryTimer ∈ s.bot.tasks → s.bot.isProcessing = true) := by
  intro hall
  have h := hall
    (run ⟨some "https://w", none⟩ St.init
      [Ev.record "t" "m" false true, Ev.fireTimer .bot 0,
       Ev.respond .bot 0 HttpResult.rate429])
    (reachable_run _ _)
  revert h
  decide

/-- C3 (amended): whenever the sink answers a delivery attempt with 429,
a retry of the same channel's flush cycle is scheduled on the fixed
5000 ms backoff timer, but the flush-in-progress flag is cleared
immediately when the failed attempt's error handling completes - before
the retry resolves; the retry itself raises the flag again when it
fires. -/
theorem rate_limit_schedules_retry_then_clears_flag (cfg : Config) (s : St)
    (c : Channel) (i : Nat) (h : (s.chan c).tasks[i]? = some CTask.awaitPost) :
    ((step cfg s (Ev.respond c i HttpResult.rate429)).chan c).tasks
        = (s.chan c).tasks.eraseIdx i ++ [CTask.retryTimer] ∧
    ((step cfg s (Ev.respond c i HttpResult.rate429)).chan c).isProcessing = false ∧
    CTask.delayMs CTask.retryTimer = some retryBackoffMs ∧ retryBackoffMs = 5000 ∧
    (∀ j, (((step cfg s (Ev.respond c i HttpResult.rate429)).chan c).tasks)[j]?
          = some CTask.retryTimer →
        ((step cfg (step cfg s (Ev.respond c i HttpResult.rate429))
            (Ev.fireTimer c j)).chan c).isProcessing = true) := by
  refine ⟨?_, ?_, rfl, rfl, ?_⟩
  · simp only [step_respond_eq]
    rw [respond_rate429_eq c i s h]
    simp
  · simp only [step_respond_eq]
    rw [respond_rate429_eq c i s h]
    simp
  · intro j hj
    simp only [step_respond_eq, step_fireTimer_eq] at hj ⊢
    rw [respond_rate429_eq c i s h] at hj ⊢
    simp only [withConsole_chan, chan_setChan_self] at hj
    rw [fireTimer_retry_eq cfg c j _ (by simpa using hj)]
    simp

/-- Concrete instance of the amended C3 theorem. -/
theorem rate_limit_schedules_retry_then_clears_flag_witness :
    ((run ⟨some "https://w", none⟩ St.init
        [Ev.record "t" "m" false true, Ev.fireTimer .bot 0]).chan .bot).tasks[0]?
      = some CTask.awaitPost ∧
    ((step ⟨some "https://w", none⟩
        (run ⟨some "https://w", none⟩ St.init
          [Ev.record "t" "m" false true, Ev.fireTimer .bot 0])
        (Ev.respond .bot 0 HttpResult.rate429)).chan .bot).isProcessing = false :=
  ⟨by decide,
   (rate_limit_schedules_retry_then_clears_flag ⟨some "https://w", none⟩
      (run ⟨some "https://w", none⟩ St.init
        [Ev.record "t" "m" false true, Ev.fireTimer .bot 0])
      Channel.bot 0 (by decide)).2.1⟩

/-! ### Claim C2 -/

/-- C2 counterexample: the claim that at most one flush cycle per
channel is ever in flight fails on the code, because the rate-limit
retry re-invokes the flush function without checking the in-progress
flag.  Along a real-time-feasible schedule (a 429 response, a fresh
"log" call while the retry timer is armed and its post is still
awaited, then the retry firing and flushing a third message) the bot
channel reaches a state with two HTTP deliveries in flight at once. -/
theorem two_inflight_deliveries_reachable :
    ¬ (∀ s : St, Reachable ⟨some "https://w", none⟩ s →
        inFlightPosts s.bot ≤ 1) := by
  intro hall
  have h := hall
    (run ⟨some "https://w", none⟩ St.init
      [Ev.record "1" "a" false true, Ev.fireTimer .bot 0,
       Ev.respond .bot 0 HttpResult.rate429,
       Ev.record "2" "b" false true, Ev.fireTimer .bot 1, Ev.fireTimer .bot 0,
       Ev.record "3" "c" false true, Ev.fireTimer .bot 0])
    (reachable_run _ _)
  revert h
  decide

/-- C2 (amended): in every execution in which the sink never answers
with status 429, each channel has at most one pending flush-cycle
suspension at any reachable state - in particular at most one delivery
in flight - and a channel whose in-progress flag is down has no flush
cycle in flight at all, so the flag is the mutual-exclusion gate.  (On a
429 the scheduled retry re-invokes the flush function without consulting
the flag, and two concurrent deliveries for the same channel become
reachable, as the counterexample shows.) -/
theorem single_flight_without_rate_limit (cfg : Config) {s : St}
    (h : ReachableNo429 cfg s) (c : Channel) :
    (s.chan c).tasks.length ≤ 1 ∧ inFlightPosts (s.chan c) ≤ 1 ∧
    ((s.chan c).isProcessing = false → (s.chan c).tasks = []) := by
  obtain ⟨hlen, hiff, _⟩ := chanMutex_reachableNo429 h c
  refine ⟨hlen, le_trans (List.countP_le_length _) hlen, ?_⟩
  intro hp
  by_contra hne
  have := hiff.mpr hne
  rw [hp] at this
  exact absurd this (by simp)

/-- Concrete instance of the amended C2 theorem. -/
theorem single_flight_without_rate_limit_witness :
    ((run ⟨some "https://w", none⟩ St.init
        [Ev.record "t" "m" false true, Ev.fireTimer .bot 0,
         Ev.respond .bot 0 HttpResult.success]).chan .bot).tasks.length ≤ 1 ∧
    inFlightPosts ((run ⟨some "https://w", none⟩ St.init
        [Ev.record "t" "m" false true, Ev.fireTimer .bot 0,
         Ev.respond .bot 0 HttpResult.success]).chan .bot) ≤ 1 ∧
    (((run ⟨some "https://w", none⟩ St.init
        [Ev.record "t" "m" false true, Ev.fireTimer .bot 0,
         Ev.respond .bot 0 HttpResult.success]).chan .bot).isProcessing = false →
      ((run ⟨some "https://w", none⟩ St.init
        [Ev.record "t" "m" false true, Ev.fireTimer .bot 0,
         Ev.respond .bot 0 HttpResult.success]).chan .bot).tasks = []) :=
  single_flight_without_rate_limit ⟨some "https://w", none⟩
    (reachableNo429_run _ _ (by decide)) Channel.bot

/-! ### Claim C5 -/

theorem unset_url_invariant (cfg : Config) (c : Channel)
    (hurl : cfg.url c = none) {s : St} (h : Reachable cfg s) :
    (∀ a ∈ s.attempts, a.channel ≠ c) ∧ s.chan c = ChanState.init := by
  induction h with
  | init =>
    refine ⟨by simp [St.init], ?_⟩
    cases c <;> rfl
  | @next s2 e hr ih =>
    obtain ⟨hatt, hchan⟩ := ih
    cases e with
    | record ts msg isS ok =>
      rw [step_record_eq]
      by_cases hdc : c = (if isS then Channel.site else Channel.bot)
      · cases ok
        · refine ⟨fun a ha => hatt a ha, ?_⟩
          cases c <;> exact hchan
        · rw [record_ok_eq, ← hdc, pushChan_none_eq cfg hurl]
          refine ⟨fun a ha => hatt a (by simpa using ha), ?_⟩
          rw [chan_withSinks]; exact hchan
      · rw [record_chan_ne cfg ts msg isS ok s2 hdc]
        refine ⟨?_, hchan⟩
        intro a ha
        cases ok
        · exact hatt a (by simpa using ha)
        · rw [record_ok_eq, pushChan_attempts] at ha
          exact hatt a (by simpa using ha)
    | fireTimer c2 i =>
      rw [step_fireTimer_eq]
      by_cases hdc : c = c2
      · subst hdc
        have hnone : (s2.chan c).tasks[i]? = none := by
          rw [hchan]; simp [ChanState.init]
        rw [fireTimer_outOfRange_eq cfg c i s2 hnone]
        exact ⟨hatt, hchan⟩
      · rw [fireTimer_chan_ne cfg hdc i s2]
        refine ⟨?_, hchan⟩
        rcases htask : (s2.chan c2).tasks[i]? with _ | t
        · rw [fireTimer_outOfRange_eq cfg c2 i s2 htask]
          exact hatt
        · cases t
          · by_cases hq : (s2.chan c2).queue = []
            · rw [fireTimer_debounce_empty_eq cfg c2 i s2 htask hq]
              intro a ha
              exact hatt a (by simpa using ha)
            · rw [fireTimer_debounce_flush_eq cfg c2 i s2 htask hq]
              intro a ha
              simp only [withAttempts_attempts, setChan_attempts, List.mem_append,
                List.mem_singleton] at ha
              rcases ha with ha | ha
              · exact hatt a ha
              · rw [ha]
                intro hcc
                exact hdc (by rw [← hcc])
          · rw [fireTimer_awaitPost_eq cfg c2 i s2 htask]
            exact hatt
          · rw [fireTimer_retry_eq cfg c2 i s2 htask]
            intro a ha
            exact hatt a (by simpa using ha)
    | respond c2 i r =>
      rw [step_respond_eq]
      by_cases hdc : c = c2
      · subst hdc
        have hnp : (s2.chan c).tasks[i]? ≠ some CTask.awaitPost := by
          rw [hchan]; simp [ChanState.init]
        rw [respond_noPost_eq c i r s2 hnp]
        exact ⟨hatt, hchan⟩
      · rw [respond_chan_ne hdc i r s2]
        refine ⟨?_, hchan⟩
        intro a ha
        by_cases hp : (s2.chan c2).tasks[i]? = some CTask.awaitPost
        · cases r
          · rw [respond_success_eq c2 i s2 hp] at ha
            exact hatt a (by simpa using ha)
          · rw [respond_rate429_eq c2 i s2 hp] at ha
            exact hatt a (by simpa using ha)
          · rw [respond_otherErr_eq c2 i s2 _ hp] at ha
            exact hatt a (by simpa using ha)
        · rw [respond_noPost_eq c2 i r s2 hp] at ha
          exact hatt a ha

/-- C5: for a channel whose destination URL is unset, no HTTP delivery
is ever attempted for that channel in any reachable state (the channel
state never even leaves its initial value), while a "log" call aimed at
that channel still writes the console and the log file and adds no
caller-visible error. -/
theorem unset_url_no_delivery (cfg : Config) (c : Channel)
    (hurl : cfg.url c = none) {s : St} (h : Reachable cfg s) :
    (∀ a ∈ s.attempts, a.channel ≠ c) ∧ s.chan c = ChanState.init ∧
    (∀ ts msg,
      (step cfg s (Ev.record ts msg (c == Channel.site) true)).console
          = s.console ++ [formatLine ts msg] ∧
      (step cfg s (Ev.record ts msg (c == Channel.site) true)).logFile
          = s.logFile ++ [formatLine ts msg] ∧
      (step cfg s (Ev.record ts msg (c == Channel.site) true)).callerErrors
          = s.callerErrors) := by
  obtain ⟨h1, h2⟩ := unset_url_invariant cfg c hurl h
  refine ⟨h1, h2, ?_⟩
  intro ts msg
  have hc : (if (c == Channel.site) then Channel.site else Channel.bot) = c := by
    cases c <;> rfl
  refine ⟨?_, ?_, ?_⟩ <;>
    rw [step_record_eq, record_ok_eq, hc, pushChan_none_eq cfg hurl]

/-- Concrete instance of the C5 theorem: with no URLs configured, one
recorded bot message leaves the bot channel untouched and a further
"log" call reaches the local sinks without a caller-visible error. -/
theorem unset_url_no_delivery_witness :
    ((run ⟨none, none⟩ St.init [Ev.record "t" "m" false true]).chan Channel.bot
        = ChanState.init) ∧
    (step ⟨none, none⟩ (run ⟨none, none⟩ St.init [Ev.record "t" "m" false true])
        (Ev.record "u" "n" (Channel.bot == Channel.site) true)).callerErrors
      = (run ⟨none, none⟩ St.init [Ev.record "t" "m" false true]).callerErrors :=
  ⟨(unset_url_no_delivery ⟨none, none⟩ Channel.bot rfl (reachable_run _ _)).2.1,
   ((unset_url_no_delivery ⟨none, none⟩ Channel.bot rfl
      (reachable_run _ _)).2.2 "u" "n").2.2⟩

/-! ### Claim C1 -/

theorem run_append (cfg : Config) (s : St) (l1 l2 : List Ev) :
    run cfg s (l1 ++ l2) = run cfg (run cfg s l1) l2 := by
  induction l1 generalizing s with
  | nil => rfl
  | cons e es ih => simp [run, ih]

theorem mkEntries_map_line (ms : List (String × String)) (n : Nat) :
    (mkEntries ms n).map Entry.line = ms.map (fun p => formatLine p.1 p.2) := by
  induction ms generalizing n with
  | nil => rfl
  | cons p ps ih => simp [mkEntries, ih]

theorem mem_mkEntries_id {ms : List (String × String)} {n : Nat} {e : Entry}
    (h : e ∈ mkEntries ms n) : n ≤ e.id ∧ e.id < n + ms.length := by
  induction ms generalizing n with
  | nil => simp [mkEntries] at h
  | cons p ps ih =>
    simp only [mkEntries, List.mem_cons] at h
    rcases h with rfl | h
    · simp
    · have := ih h
      simp only [List.length_cons]
      omega

/-- One bot "log" call while a flush cycle is marked in progress: the
entry coalesces into the pending queue and nothing else starts. -/
theorem record_bot_busy (u : String) (v : Option String) (ts msg : String)
    (s : St) (hflag : s.bot.isProcessing = true) :
    step ⟨some u, v⟩ s (Ev.record ts msg false true)
      = { s with
          bot := { s.bot with queue := s.bot.queue ++ [⟨s.nextId, formatLine ts msg⟩] },
          console := s.console ++ [formatLine ts msg],
          logFile := s.logFile ++ [formatLine ts msg],
          nextId := s.nextId + 1 } := by
  simp [step_record_eq, recordStep, pushChan, Config.url, hflag, St.chan, St.setChan]

/-- One bot "log" call while no flush cycle is in progress: the entry is
queued, the flag goes up and a debounce timer is armed. -/
theorem record_bot_idle (u : String) (v : Option String) (ts msg : String)
    (s : St) (hflag : s.bot.isProcessing = false) :
    step ⟨some u, v⟩ s (Ev.record ts msg false true)
      = { s with
          bot := ⟨s.bot.queue ++ [⟨s.nextId, formatLine ts msg⟩], true,
            s.bot.tasks ++ [CTask.debounce]⟩,
          console := s.console ++ [formatLine ts msg],
          logFile := s.logFile ++ [formatLine ts msg],
          nextId := s.nextId + 1 } := by
  simp [step_record_eq, recordStep, pushChan, Config.url, hflag, St.chan, St.setChan,
    startProcess]

/-- A burst of bot "log" calls while the flush cycle is in progress: all
entries coalesce into the pending queue in call order. -/
theorem run_records_busy (u : String) (v : Option String)
    (ms : List (String × String)) (s : St) (hflag : s.bot.isProcessing = true) :
    run ⟨some u, v⟩ s (recordEvs ms)
      = { s with
          bot := { s.bot with queue := s.bot.queue ++ mkEntries ms s.nextId },
          console := s.console ++ ms.map (fun p => formatLine p.1 p.2),
          logFile := s.logFile ++ ms.map (fun p => formatLine p.1 p.2),
          nextId := s.nextId + ms.length } := by
  induction ms generalizing s with
  | nil => simp [recordEvs, run, mkEntries]
  | cons p ps ih =>
    have hrun : run ⟨some u, v⟩ s (recordEvs (p :: ps))
        = run ⟨some u, v⟩ (step ⟨some u, v⟩ s (Ev.record p.1 p.2 false true))
            (recordEvs ps) := rfl
    have hflag2 : (step ⟨some u, v⟩ s (Ev.record p.1 p.2 false true)).bot.isProcessing
        = true := by
      rw [record_bot_busy u v p.1 p.2 s hflag]
      exact hflag
    rw [hrun, ih _ hflag2, record_bot_busy u v p.1 p.2 s hflag]
    simp [mkEntries, List.append_assoc]
    all_goals omega

/-- The state after a burst of bot "log" calls from process start. -/
theorem run_records_from_init (u : String) (v : Option String)
    (p : String × String) (ps : List (String × String)) :
    run ⟨some u, v⟩ St.init (recordEvs (p :: ps))
      = { St.init with
          bot := ⟨mkEntries (p :: ps) 0, true, [CTask.debounce]⟩,
          console := (p :: ps).map (fun q => formatLine q.1 q.2),
          logFile := (p :: ps).map (fun q => formatLine q.1 q.2),
          nextId := (p :: ps).length } := by
  have hrun : run ⟨some u, v⟩ St.init (recordEvs (p :: ps))
      = run ⟨some u, v⟩ (step ⟨some u, v⟩ St.init (Ev.record p.1 p.2 false true))
          (recordEvs ps) := rfl
  have hflag2 : (step ⟨some u, v⟩ St.init (Ev.record p.1 p.2 false true)).bot.isProcessing
      = true := by
    rw [record_bot_idle u v p.1 p.2 St.init rfl]
  rw [hrun, run_records_busy u v ps _ hflag2, record_bot_idle u v p.1 p.2 St.init rfl]
  simp [St.init, ChanState.init, mkEntries]
  all_goals omega

/-- C1: all "log" calls of one debounce window on the configured bot
channel coalesce, and when the debounce timer fires exactly one delivery
is attempted: an HTTP POST to the configured URL whose body is the
record "content := p" where "p" is the newline-join of the formatted
messages in call order. -/
theorem debounce_window_single_delivery (u : String) (v : Option String)
    (ms : List (String × String)) (hms : ms ≠ []) :
    (run ⟨some u, v⟩ St.init (recordEvs ms ++ [Ev.fireTimer .bot 0])).attempts
      = [⟨Channel.bot, some u, mkEntries ms 0⟩] ∧
    (mkEntries ms 0).map Entry.line = ms.map (fun p => formatLine p.1 p.2) ∧
    Attempt.body ⟨Channel.bot, some u, mkEntries ms 0⟩
      = ⟨String.intercalate "\n" (ms.map (fun p => formatLine p.1 p.2))⟩ := by
  rcases ms with _ | ⟨p, ps⟩
  · exact absurd rfl hms
  · refine ⟨?_, mkEntries_map_line _ _, ?_⟩
    · rw [run_append, run_records_from_init u v p ps]
      have hone : ∀ (x : St) (e : Ev) (cfg : Config),
          run cfg x [e] = step cfg x e := fun _ _ _ => rfl
      rw [hone, step_fireTimer_eq,
        fireTimer_debounce_flush_eq _ _ _ _ (by rfl) (by simp [mkEntries])]
      simp [St.init, Config.url]
    · simp [Attempt.body, joinLines, mkEntries_map_line]

/-- Concrete instance of the C1 theorem: two messages in one window
produce one POST whose content joins both lines in order. -/
theorem debounce_window_single_delivery_witness :
    (run ⟨some "https://w", none⟩ St.init
        (recordEvs [("a", "X"), ("b", "Y")] ++ [Ev.fireTimer .bot 0])).attempts
      = [⟨Channel.bot, some "https://w", mkEntries [("a", "X"), ("b", "Y")] 0⟩] ∧
    (mkEntries [("a", "X"), ("b", "Y")] 0).map Entry.line
      = [("a", "X"), ("b", "Y")].map (fun p => formatLine p.1 p.2) ∧
    Attempt.body ⟨Channel.bot, some "https://w", mkEntries [("a", "X"), ("b", "Y")] 0⟩
      = ⟨String.intercalate "\n"
          ([("a", "X"), ("b", "Y")].map (fun p => formatLine p.1 p.2))⟩ :=
  debounce_window_single_delivery "https://w" none [("a", "X"), ("b", "Y")]
    (by decide)

/-! ### Claim C4 -/

/-- C4: when a flush is rate limited, the batch is lost.  The pending
queue was cleared when the batch was snapshotted and the 429 handling
does not restore it (after the 429 the queue is empty and only the retry
timer is armed); the retry then flushes only messages recorded after the
snapshot, so the second delivery attempt carries exactly the new
entries and none of the lost batch. -/
theorem failed_batch_not_requeued (u : String) (v : Option String)
    (ms ms2 : List (String × String)) (hms : ms ≠ []) (hms2 : ms2 ≠ []) :
    (run ⟨some u, v⟩ St.init
        (recordEvs ms ++ [Ev.fireTimer .bot 0,
          Ev.respond .bot 0 HttpResult.rate429])).bot.queue = [] ∧
    (run ⟨some u, v⟩ St.init
        (recordEvs ms ++ [Ev.fireTimer .bot 0,
          Ev.respond .bot 0 HttpResult.rate429])).bot.tasks = [CTask.retryTimer] ∧
    (run ⟨some u, v⟩ St.init
        (recordEvs ms ++ [Ev.fireTimer .bot 0, Ev.respond .bot 0 HttpResult.rate429,
          Ev.fireTimer .bot 0] ++ recordEvs ms2 ++ [Ev.fireTimer .bot 0])).attempts
      = [⟨Channel.bot, some u, mkEntries ms 0⟩,
         ⟨Channel.bot, some u, mkEntries ms2 ms.length⟩] ∧
    (∀ e ∈ mkEntries ms 0, e ∉ mkEntries ms2 ms.length) := by
  rcases ms with _ | ⟨p, ps⟩
  · exact absurd rfl hms
  rcases ms2 with _ | ⟨q, qs⟩
  · exact absurd rfl hms2
  have hone : ∀ (x : St) (e : Ev), run ⟨some u, v⟩ x [e] = step ⟨some u, v⟩ x e :=
    fun _ _ => rfl
  have htwo : ∀ (x : St) (e1 e2 : Ev), run ⟨some u, v⟩ x [e1, e2]
      = step ⟨some u, v⟩ (step ⟨some u, v⟩ x e1) e2 := fun _ _ _ => rfl
  have hthree : ∀ (x : St) (e1 e2 e3 : Ev), run ⟨some u, v⟩ x [e1, e2, e3]
      = step ⟨some u, v⟩ (step ⟨some u, v⟩ (step ⟨some u, v⟩ x e1) e2) e3 :=
    fun _ _ _ _ => rfl
  have h0 := run_records_from_init u v p ps
  have h1 : step ⟨some u, v⟩
      ({ St.init with
         bot := ⟨mkEntries (p :: ps) 0, true, [CTask.debounce]⟩,
         console := (p :: ps).map (fun r => formatLine r.1 r.2),
         logFile := (p :: ps).map (fun r => formatLine r.1 r.2),
         nextId := (p :: ps).length }) (Ev.fireTimer .bot 0)
      = { St.init with
          bot := ⟨[], true, [CTask.awaitPost]⟩,
          attempts := [⟨Channel.bot, some u, mkEntries (p :: ps) 0⟩],
          console := (p :: ps).map (fun r => formatLine r.1 r.2),
          logFile := (p :: ps).map (fun r => formatLine r.1 r.2),
          nextId := (p :: ps).length } := by
    rw [step_fireTimer_eq,
      fireTimer_debounce_flush_eq _ _ _ _ (by rfl) (by simp [mkEntries])]
    simp [St.init, Config.url, St.setChan, St.withAttempts, St.chan]
  have h2 : step ⟨some u, v⟩
      ({ St.init with
         bot := ⟨[], true, [CTask.awaitPost]⟩,
         attempts := [⟨Channel.bot, some u, mkEntries (p :: ps) 0⟩],
         console := (p :: ps).map (fun r => formatLine r.1 r.2),
         logFile := (p :: ps).map (fun r => formatLine r.1 r.2),
         nextId := (p :: ps).length }) (Ev.respond .bot 0 HttpResult.rate429)
      = { St.init with
          bot := ⟨[], false, [CTask.retryTimer]⟩,
          attempts := [⟨Channel.bot, some u, mkEntries (p :: ps) 0⟩],
          console := (p :: ps).map (fun r => formatLine r.1 r.2)
            ++ ["Rate limited. Retrying after 5 seconds..."],
          logFile := (p :: ps).map (fun r => formatLine r.1 r.2),
          nextId := (p :: ps).length } := by
    rw [step_respond_eq, respond_rate429_eq _ _ _ (by rfl)]
    simp [St.init, St.setChan, St.withConsole, St.chan]
  have h3 : step ⟨some u, v⟩
      ({ St.init with
         bot := ⟨[], false, [CTask.retryTimer]⟩,
         attempts := [⟨Channel.bot, some u, mkEntries (p :: ps) 0⟩],
         console := (p :: ps).map (fun r => formatLine r.1 r.2)
           ++ ["Rate limited. Retrying after 5 seconds..."],
         logFile := (p :: ps).map (fun r => formatLine r.1 r.2),
         nextId := (p :: ps).length }) (Ev.fireTimer .bot 0)
      = { St.init with
          bot := ⟨[], true, [CTask.debounce]⟩,
          attempts := [⟨Channel.bot, some u, mkEntries (p :: ps) 0⟩],
          console := (p :: ps).map (fun r => formatLine r.1 r.2)
            ++ ["Rate limited. Retrying after 5 seconds..."],
          logFile := (p :: ps).map (fun r => formatLine r.1 r.2),
          nextId := (p :: ps).length } := by
    rw [step_fireTimer_eq, fireTimer_retry_eq _ _ _ _ (by rfl)]
    simp [St.init, St.setChan, St.chan]
  refine ⟨?_, ?_, ?_, ?_⟩
  · rw [run_append, h0, htwo, h1, h2]
  · rw [run_append, h0, htwo, h1, h2]
  · have hsplit : recordEvs (p :: ps) ++ [Ev.fireTimer .bot 0,
        Ev.respond .bot 0 HttpResult.rate429, Ev.fireTimer .bot 0]
        ++ recordEvs (q :: qs) ++ [Ev.fireTimer .bot 0]
        = recordEvs (p :: ps) ++ ([Ev.fireTimer .bot 0,
            Ev.respond .bot 0 HttpResult.rate429, Ev.fireTimer .bot 0]
          ++ (recordEvs (q :: qs) ++ [Ev.fireTimer .bot 0])) := by
      simp [List.append_assoc]
    rw [hsplit, run_append, h0, run_append, hthree, h1, h2, h3, run_append,
      run_records_busy u v (q :: qs)
        ({ St.init with
           bot := ⟨[], true, [CTask.debounce]⟩,
           attempts := [⟨Channel.bot, some u, mkEntries (p :: ps) 0⟩],
           console := (p :: ps).map (fun r => formatLine r.1 r.2)
             ++ ["Rate limited. Retrying after 5 seconds..."],
           logFile := (p :: ps).map (fun r => formatLine r.1 r.2),
           nextId := (p :: ps).length }) rfl,
      hone, step_fireTimer_eq,
      fireTimer_debounce_flush_eq _ _ _ _ (by rfl) (by simp [mkEntries])]
    simp [St.init, Config.url, St.setChan, St.withAttempts, St.chan, mkEntries]
  · intro e he hbad
    have hb1 := mem_mkEntries_id he
    have hb2 := mem_mkEntries_id hbad
    omega

/-- Concrete instance of the C4 theorem. -/
theorem failed_batch_not_requeued_witness :
    (run ⟨some "https://w", none⟩ St.init
        (recordEvs [("a", "X")] ++ [Ev.fireTimer .bot 0,
          Ev.respond .bot 0 HttpResult.rate429])).bot.queue = [] ∧
    (run ⟨some "https://w", none⟩ St.init
        (recordEvs [("a", "X")] ++ [Ev.fireTimer .bot 0,
          Ev.respond .bot 0 HttpResult.rate429])).bot.tasks = [CTask.retryTimer] ∧
    (run ⟨some "https://w", none⟩ St.init
        (recordEvs [("a", "X")] ++ [Ev.fireTimer .bot 0,
          Ev.respond .bot 0 HttpResult.rate429,
          Ev.fireTimer .bot 0] ++ recordEvs [("b", "Y")] ++ [Ev.fireTimer .bot 0])).attempts
      = [⟨Channel.bot, some "https://w", mkEntries [("a", "X")] 0⟩,
         ⟨Channel.bot, some "https://w", mkEntries [("b", "Y")] [("a", "X")].length⟩] ∧
    (∀ e ∈ mkEntries [("a", "X")] 0, e ∉ mkEntries [("b", "Y")] [("a", "X")].length) :=
  failed_batch_not_requeued "https://w" none [("a", "X")] [("b", "Y")]
    (by decide) (by decide)

/-! ### Claim C9 -/

theorem pushChan_nextId_some (cfg : Config) {c : Channel} {u : String}
    (h : cfg.url c = some u) (line : String) (s : St) :
    (pushChan cfg c line s).nextId = s.nextId + 1 := by
  rcases hp : (s.chan c).isProcessing
  · rw [pushChan_idle_eq cfg h line s hp]; simp
  · rw [pushChan_busy_eq cfg h line s hp]; simp

theorem totalIdCount_push (cfg : Config) {c : Channel} {u : String}
    (h : cfg.url c = some u) (line : String) (s : St) (id : Nat) :
    totalIdCount id (pushChan cfg c line s)
      = totalIdCount id s + idCount id [⟨s.nextId, line⟩] := by
  rcases hp : (s.chan c).isProcessing
  · rw [pushChan_idle_eq cfg h line s hp]
    cases c <;>
      simp [totalIdCount, idCount, attemptsIdCount, St.chan, St.setChan,
        St.withNextId, List.countP_append] <;> omega
  · rw [pushChan_busy_eq cfg h line s hp]
    cases c <;>
      simp [totalIdCount, idCount, attemptsIdCount, St.chan, St.setChan,
        St.withNextId, List.countP_append] <;> omega

theorem totalIdCount_flush (cfg : Config) {c : Channel} (i : Nat) (s : St)
    (htask : (s.chan c).tasks[i]? = some CTask.debounce)
    (hq : (s.chan c).queue ≠ []) (id : Nat) :
    totalIdCount id (fireTimerStep cfg c i s) = totalIdCount id s := by
  rw [fireTimer_debounce_flush_eq cfg c i s htask hq]
  cases c <;>
    simp [totalIdCount, idCount, attemptsIdCount, St.chan, St.setChan,
      St.withAttempts, List.countP_append]
  all_goals omega

theorem totalIdCount_fireTimer (cfg : Config) (c : Channel) (i : Nat) (s : St)
    (id : Nat)
    (hnf : ¬((s.chan c).tasks[i]? = some CTask.debounce ∧ (s.chan c).queue ≠ [])) :
    totalIdCount id (fireTimerStep cfg c i s) = totalIdCount id s := by
  rcases htask : (s.chan c).tasks[i]? with _ | t
  · rw [fireTimer_outOfRange_eq cfg c i s htask]
  · cases t
    · have hq : (s.chan c).queue = [] := by
        by_contra hq
        exact hnf ⟨htask, hq⟩
      rw [fireTimer_debounce_empty_eq cfg c i s htask hq]
      cases c <;> simp [totalIdCount, St.setChan, St.chan, attemptsIdCount, idCount]
    · rw [fireTimer_awaitPost_eq cfg c i s htask]
    · rw [fireTimer_retry_eq cfg c i s htask]
      cases c <;> simp [totalIdCount, St.setChan, St.chan, attemptsIdCount, idCount]

theorem totalIdCount_respond (c : Channel) (i : Nat) (r : HttpResult) (s : St)
    (id : Nat) : totalIdCount id (respondStep c i r s) = totalIdCount id s := by
  by_cases hp : (s.chan c).tasks[i]? = some CTask.awaitPost
  · cases r
    · rw [respond_success_eq c i s hp]
      cases c <;> simp [totalIdCount, St.setChan, St.chan, St.withConsole,
        attemptsIdCount, idCount]
    · rw [respond_rate429_eq c i s hp]
      cases c <;> simp [totalIdCount, St.setChan, St.chan, St.withConsole,
        attemptsIdCount, idCount]
    · rw [respond_otherErr_eq c i s _ hp]
      cases c <;> simp [totalIdCount, St.setChan, St.chan, St.withConsole,
        attemptsIdCount, idCount]
  · rw [respond_noPost_eq c i r s hp]

theorem fireTimer_nextId (cfg : Config) (c : Channel) (i : Nat) (s : St) :
    (fireTimerStep cfg c i s).nextId = s.nextId := by
  rcases htask : (s.chan c).tasks[i]? with _ | t
  · rw [fireTimer_outOfRange_eq cfg c i s htask]
  · cases t
    · by_cases hq : (s.chan c).queue = []
      · rw [fireTimer_debounce_empty_eq cfg c i s htask hq]; simp
      · rw [fireTimer_debounce_flush_eq cfg c i s htask hq]; simp
    · rw [fireTimer_awaitPost_eq cfg c i s htask]
    · rw [fireTimer_retry_eq cfg c i s htask]; simp

theorem respond_nextId (c : Channel) (i : Nat) (r : HttpResult) (s : St) :
    (respondStep c i r s).nextId = s.nextId := by
  by_cases hp : (s.chan c).tasks[i]? = some CTask.awaitPost
  · cases r
    · rw [respond_success_eq c i s hp]; simp
    · rw [respond_rate429_eq c i s hp]; simp
    · rw [respond_otherErr_eq c i s _ hp]; simp
  · rw [respond_noPost_eq c i r s hp]

theorem idCount_single (id n : Nat) (line : String) :
    idCount id [⟨n, line⟩] = if n = id then 1 else 0 := by
  simp [idCount, List.countP_cons]

theorem idFresh_step (cfg : Config) (e : Ev) {s : St} (hf : IdFresh s) :
    IdFresh (step cfg s e) := by
  cases e with
  | record ts msg isS ok =>
    rw [step_record_eq]
    cases ok
    · exact fun id => hf id
    · rw [record_ok_eq]
      rcases hurl : cfg.url (if isS then Channel.site else Channel.bot) with _ | u
      · rw [pushChan_none_eq cfg hurl]
        exact fun id => hf id
      · intro id
        rw [totalIdCount_push cfg hurl (formatLine ts msg) _ id,
          pushChan_nextId_some cfg hurl (formatLine ts msg) _]
        obtain ⟨h1, h2⟩ := hf id
        have hsingle := idCount_single id s.nextId (formatLine ts msg)
        constructor
        · show totalIdCount id s + idCount id [⟨s.nextId, formatLine ts msg⟩] ≤ 1
          by_cases hid : s.nextId = id
          · have h0 : totalIdCount id s = 0 := h2 (by omega)
            rw [h0, hsingle]
            simp [hid]
          · rw [hsingle]
            simp only [hid, if_false]
            omega
        · show s.nextId + 1 ≤ id →
            totalIdCount id s + idCount id [⟨s.nextId, formatLine ts msg⟩] = 0
          intro hle
          have h0 : totalIdCount id s = 0 := h2 (by omega)
          rw [h0, hsingle]
          have : s.nextId ≠ id := by omega
          simp [this]
  | fireTimer c i =>
    rw [step_fireTimer_eq]
    intro id
    obtain ⟨h1, h2⟩ := hf id
    have hnext := fireTimer_nextId cfg c i s
    by_cases hfl : (s.chan c).tasks[i]? = some CTask.debounce ∧ (s.chan c).queue ≠ []
    · rw [totalIdCount_flush cfg i s hfl.1 hfl.2 id, hnext]
      exact ⟨h1, h2⟩
    · rw [totalIdCount_fireTimer cfg c i s id hfl, hnext]
      exact ⟨h1, h2⟩
  | respond c i r =>
    rw [step_respond_eq]
    intro id
    rw [totalIdCount_respond c i r s id, respond_nextId c i r s]
    exact hf id

theorem idFresh_reachable {cfg : Config} {s : St} (h : Reachable cfg s) :
    IdFresh s := by
  induction h with
  | init =>
    intro id
    constructor
    · simp [totalIdCount, St.init, ChanState.init, attemptsIdCount, idCount]
    · intro _
      simp [totalIdCount, St.init, ChanState.init, attemptsIdCount, idCount]
  | next e _ ih => exact idFresh_step _ e ih

theorem countP_any_le_attemptsIdCount (id : Nat) (as : List Attempt) :
    as.countP (fun a => a.batch.any (fun e => e.id == id)) ≤ attemptsIdCount id as := by
  induction as with
  | nil => simp [attemptsIdCount]
  | cons a rest ih =>
    rw [List.countP_cons]
    have hstep : attemptsIdCount id (a :: rest)
        = idCount id a.batch + attemptsIdCount id rest := by
      simp [attemptsIdCount]
    rw [hstep]
    by_cases hany : a.batch.any (fun e => e.id == id) = true
    · have hpos : 0 < idCount id a.batch := by
        rcases List.any_eq_true.mp hany with ⟨e, he, hid⟩
        exact List.countP_pos_iff.mpr ⟨e, he, hid⟩
      simp only [hany, if_true]
      omega
    · simp [hany]
      omega

/-- C9: every log entry is included in at most one delivery attempt.
The flush cycle clears the snapshotted entries out of the pending queue
before issuing the post and nothing ever puts them back, so across every
reachable state no entry id occurs in two attempted batches (nor twice
in one). -/
theorem entry_delivered_at_most_once (cfg : Config) {s : St}
    (h : Reachable cfg s) (id : Nat) :
    s.attempts.countP (fun a => a.batch.any (fun e => e.id == id)) ≤ 1 ∧
    attemptsIdCount id s.attempts ≤ 1 := by
  have hf := (idFresh_reachable h id).1
  have hle := countP_any_le_attemptsIdCount id s.attempts
  have hsub : attemptsIdCount id s.attempts ≤ totalIdCount id s := by
    simp only [totalIdCount]
    omega
  exact ⟨by omega, by omega⟩

/-- Concrete instance of the C9 theorem. -/
theorem entry_delivered_at_most_once_witness :
    (run ⟨some "https://w", none⟩ St.init
        [Ev.record "t" "m" false true, Ev.fireTimer .bot 0]).attempts.countP
      (fun a => a.batch.any (fun e => e.id == 0)) ≤ 1 ∧
    attemptsIdCount 0 (run ⟨some "https://w", none⟩ St.init
        [Ev.record "t" "m" false true, Ev.fireTimer .bot 0]).attempts ≤ 1 :=
  entry_delivered_at_most_once ⟨some "https://w", none⟩ (reachable_run _ _) 0

end Phoenix
